import Mathlib

/-!
Verification of the WanderTogether companion-ranking engine.

The development shallowly embeds the scoring and ranking code of
src/hybrid_algorithm.py and src/recommendation_algorithms.py (plus the
top-6 truncation of compute_hybrid_recommendations in src/app.py).
Python floats are modelled as exact rationals, Python dicts of weights as
association lists with first-match lookup, Python sets as Finsets, and
missing dictionary keys as Option values.  The ASCII fragments of the
Python string primitives used by the code (str.lower, str.strip,
str.split, and the re.sub punctuation filter) are embedded structurally
over the character list of a string so that concrete inputs evaluate
inside the kernel.
-/

/-- Models Python str.lower on an ASCII character: A-Z map to a-z and
every other character is unchanged. -/
def lowerChar (c : Char) : Char :=
  if 65 ≤ c.toNat ∧ c.toNat ≤ 90 then Char.ofNat (c.toNat + 32) else c

/-- Models Python str.lower (ASCII fragment), character by character. -/
def lowerStr (s : String) : String := String.mk (s.data.map lowerChar)

/-- Whitespace recognised by Python str.strip, str.split and the regex
class backslash-s: space, tab, newline, carriage return, vertical tab and
form feed. -/
def isWs (c : Char) : Bool :=
  c = ' ' ∨ c = '\t' ∨ c = '\n' ∨ c = '\r' ∨ c.toNat = 11 ∨ c.toNat = 12

/-- Models Python str.strip with no arguments: drop leading and trailing
whitespace. -/
def trimStr (s : String) : String :=
  String.mk (((s.data.dropWhile fun c => isWs c).reverse.dropWhile fun c => isWs c).reverse)

/-- Accumulator for splitWs: walks the character list, collecting the
current token in reverse. -/
def splitWsAux : List Char → List Char → List String
  | [], acc => if acc.isEmpty then [] else [String.mk acc.reverse]
  | c :: cs, acc =>
    if isWs c then
      (if acc.isEmpty then splitWsAux cs [] else String.mk acc.reverse :: splitWsAux cs [])
    else splitWsAux cs (c :: acc)

/-- Models Python str.split with no arguments: split on runs of
whitespace, producing no empty tokens. -/
def splitWs (s : String) : List String := splitWsAux s.data []

/-- Models dict.get(key, 0) on a Python dict of float weights: the value
at the first matching key, 0 when the key is absent. -/
def dget : List (String × ℚ) → String → ℚ
  | [], _ => 0
  | kv :: rest, k => if kv.1 = k then kv.2 else dget rest k

/-- Models sum(d.values()) on a Python dict of float weights. -/
def dsum : List (String × ℚ) → ℚ
  | [] => 0
  | kv :: rest => kv.2 + dsum rest

/-- The query profile built by parse_user_form in src/app.py: pace and
budget are always present (the similarity functions index them with
user[...]), the remaining attributes may be absent. -/
structure UserProfile where
  pace : ℚ
  budget : ℚ
  style : Option String := none
  interests : Finset String := ∅
  sleep : Option (Finset String) := none
  smoking : Option String := none
  alcohol : Option String := none
  dietary : Option String := none
  cleanliness : Option String := none
  fitness : Option String := none
  gender : Option String := none
  age : Option Int := none
  bio : Option String := none

/-- A candidate profile: every attribute is accessed with profile.get and
may be absent, including the trust value. -/
structure Profile where
  id : Nat := 0
  trust : Option ℚ := none
  pace : Option ℚ := none
  budget : Option ℚ := none
  style : Option String := none
  interests : Finset String := ∅
  sleep : Option (Finset String) := none
  smoking : Option String := none
  alcohol : Option String := none
  dietary : Option String := none
  cleanliness : Option String := none
  fitness : Option String := none
  gender : Option String := none
  age : Option Int := none
  bio : Option String := none

namespace Sim

/-!
The attribute similarity library.  src/hybrid_algorithm.py and
src/recommendation_algorithms.py each contain a textually identical copy
of these functions (the only difference, interests_similarity reading the
user interests with a set() conversion in one file and directly in the
other, vanishes here because the embedding stores interests as a Finset
already); they are embedded once and shared by both algorithm modules.
-/

/-- Models re.sub removing every character outside lowercase letters,
digits and whitespace (replace_punct in both source files). -/
def replace_punct (s : String) : String :=
  String.mk (s.data.filter fun c =>
    decide ((97 ≤ c.toNat ∧ c.toNat ≤ 122) ∨ (48 ≤ c.toNat ∧ c.toNat ≤ 57) ∨ isWs c = true))

/-- The token set of a piece of text: Python set(text.split()). -/
def tokenSet (s : String) : Finset String := (splitWs s).toFinset

/-- SAFETY_KEYWORDS from both source files. -/
def SAFETY_KEYWORDS : Finset String :=
  (["female-only", "verified", "low-key", "cautious", "quiet", "calm", "safe",
    "safety", "trust", "id-verified", "blockchain", "respectful"]).toFinset

/-- OUTDOOR_KEYWORDS from both source files. -/
def OUTDOOR_KEYWORDS : Finset String :=
  (["hike", "hiking", "trek", "trekking", "trail", "camp", "camping", "backpack",
    "backpacking", "mountain", "nature", "outdoor", "outdoors", "wild", "summit"]).toFinset

/-- pace_similarity: 1 - abs(user pace - profile pace) / 2, the candidate
pace defaulting to 2 when absent. -/
def pace_similarity (user : UserProfile) (profile : Profile) : ℚ :=
  1 - |user.pace - profile.pace.getD 2| / 2

/-- budget_similarity: 1 - abs(user budget - profile budget) / 2, the
candidate budget defaulting to 2 when absent. -/
def budget_similarity (user : UserProfile) (profile : Profile) : ℚ :=
  1 - |user.budget - profile.budget.getD 2| / 2

/-- interests_similarity: 0 when both interest sets are empty, otherwise
intersection size over max(sizes, 1). -/
def interests_similarity (user : UserProfile) (profile : Profile) : ℚ :=
  let u := user.interests
  let p := profile.interests
  if u = ∅ ∧ p = ∅ then 0
  else ((u ∩ p).card : ℚ) / ((max (max u.card p.card) 1 : ℕ) : ℚ)

/-- style_similarity: 1 when the two style values are equal (including
both absent, as Python None == None), else 0. -/
def style_similarity (user : UserProfile) (profile : Profile) : ℚ :=
  if user.style = profile.style then 1 else 0

/-- jaccard_overlap on optional string sets: set(a or []) against
set(b or []); 0 when both are empty, else intersection over
max(1, union). -/
def jaccard_overlap (a b : Option (Finset String)) : ℚ :=
  let A := a.getD ∅
  let B := b.getD ∅
  if A = ∅ ∧ B = ∅ then 0
  else ((A ∩ B).card : ℚ) / ((max 1 (A ∪ B).card : ℕ) : ℚ)

/-- sleep_similarity: jaccard_overlap of the optional sleep sets. -/
def sleep_similarity (user : UserProfile) (profile : Profile) : ℚ :=
  jaccard_overlap user.sleep profile.sleep

/-- Models the normalisation (value or two-quote-empty).strip().lower()
applied to habit strings by habit_match and categorical_similarity. -/
def pyNorm (v : Option String) : String := lowerStr (trimStr (v.getD ""))

/-- habit_match: 0.5 when either normalised side is empty, else 1 on
equality and 0 on mismatch. -/
def habit_match (user_val profile_val : Option String) : ℚ :=
  let u := pyNorm user_val
  let p := pyNorm profile_val
  if u = "" ∨ p = "" then 1/2
  else if u = p then 1 else 0

/-- categorical_similarity: 0 when both normalised sides are empty, 0.5
when exactly one is empty, else 1 on equality and 0 on mismatch. -/
def categorical_similarity (user_val profile_val : Option String) : ℚ :=
  let u := pyNorm user_val
  let p := pyNorm profile_val
  if u = "" ∧ p = "" then 0
  else if u = "" ∨ p = "" then 1/2
  else if u = p then 1 else 0

/-- The gender contribution shared by both demographics scorers: 1 for
case-insensitive equality when both genders are present, else 0
(absence on either side scores 0). -/
def gender_points (ug pg : Option String) : ℚ :=
  match ug, pg with
  | some g1, some g2 => if lowerStr g1 = lowerStr g2 then 1 else 0
  | _, _ => 0

/-- The lenient age tiers of demographics_score: diff at most 5 gives 1,
at most 10 gives 0.5, else 0; absence on either side gives 0. -/
def age_points (ua pa : Option Int) : ℚ :=
  match ua, pa with
  | some a1, some a2 =>
    if (a1 - a2).natAbs ≤ 5 then 1 else if (a1 - a2).natAbs ≤ 10 then 1/2 else 0
  | _, _ => 0

/-- The strict age tiers of demographics_strict: diff at most 3 gives 1,
at most 7 gives 0.6, at most 12 gives 0.3, else 0. -/
def age_points_strict (ua pa : Option Int) : ℚ :=
  match ua, pa with
  | some a1, some a2 =>
    if (a1 - a2).natAbs ≤ 3 then 1
    else if (a1 - a2).natAbs ≤ 7 then 3/5
    else if (a1 - a2).natAbs ≤ 12 then 3/10 else 0
  | _, _ => 0

/-- demographics_score (lenient): gender point plus lenient age points,
capped at 2 and divided by 2. -/
def demographics_score (user : UserProfile) (profile : Profile) : ℚ :=
  min (gender_points user.gender profile.gender + age_points user.age profile.age) 2 / 2

/-- demographics_strict: 0.7 times the gender match plus 0.3 times the
strict age tier. -/
def demographics_strict (user : UserProfile) (profile : Profile) : ℚ :=
  7/10 * gender_points user.gender profile.gender
    + 3/10 * age_points_strict user.age profile.age

/-- safety_keyword_score: tokens of the lowered, punctuation-stripped
concatenation of both bios intersected with SAFETY_KEYWORDS, divided by 3
and capped at 1. -/
def safety_keyword_score (user : UserProfile) (profile : Profile) : ℚ :=
  let text := replace_punct (lowerStr (user.bio.getD "" ++ " " ++ profile.bio.getD ""))
  let tokens := tokenSet text
  min 1 (((tokens ∩ SAFETY_KEYWORDS).card : ℚ) / 3)

/-- semantic_bio_score: shared bio tokens divided by max(1, query token
count); the denominator is query-side only. -/
def semantic_bio_score (user : UserProfile) (profile : Profile) : ℚ :=
  let user_keywords := tokenSet (replace_punct (lowerStr (user.bio.getD "")))
  let profile_keywords := tokenSet (replace_punct (lowerStr (profile.bio.getD "")))
  ((user_keywords ∩ profile_keywords).card : ℚ) / ((max 1 user_keywords.card : ℕ) : ℚ)

end Sim

/-- Stable insertion step for a descending sort: x is placed before the
first element whose key is at most the key of x, so an element inserted
later never overtakes an equal-key element already present. -/
def insertDescBy {α : Type} (key : α → ℚ) (x : α) : List α → List α
  | [] => [x]
  | y :: ys => if key x < key y then y :: insertDescBy key x ys else x :: y :: ys

/-- Stable descending sort by a rational key.  Python sorted(...,
key=..., reverse=True) is a stable descending sort, and the stable
descending sort of a list is unique, so this insertion sort is
extensionally the sort used at line 229 of src/hybrid_algorithm.py and
in the baseline algorithms. -/
def sortDescBy {α : Type} (key : α → ℚ) : List α → List α
  | [] => []
  | x :: xs => insertDescBy key x (sortDescBy key xs)

namespace HybridAlgorithm

/-- trust_multiplier in src/hybrid_algorithm.py: the trust value,
defaulting to 0.5 when absent, clamped into the unit interval. -/
def trust_multiplier (profile : Profile) : ℚ :=
  max 0 (min 1 (profile.trust.getD (1/2)))

/-- soft_trust: 0.6 + 0.4 * clamp(t, 0, 1), the softened trust penalty
applied after the gate. -/
def soft_trust (t : ℚ) : ℚ := 3/5 + 2/5 * max 0 (min 1 t)

/-- W_hybrid, the hardcoded weight dict of the hybrid algorithm. -/
def W_hybrid : List (String × ℚ) :=
  [("demographics", 35/100), ("bio_safety", 5/100), ("sleep", 3/100), ("style", 2/100),
   ("smoking", 3/100), ("alcohol", 3/100), ("dietary", 2/100), ("cleanliness", 2/100),
   ("budget", 25/100), ("pace", 20/100), ("interests", 10/100)]

/-- TRUST_GATE in src/hybrid_algorithm.py. -/
def TRUST_GATE : ℚ := 7/10

/-- The raw compatibility S of one candidate in the hybrid loop: the
W_hybrid-weighted sum of the eleven components divided by
(sum(W_hybrid.values()) or 1.0). -/
def hybrid_raw (user : UserProfile) (p : Profile) : ℚ :=
  let weighted :=
    dget W_hybrid "demographics" * Sim.demographics_strict user p +
    dget W_hybrid "bio_safety" * Sim.safety_keyword_score user p +
    dget W_hybrid "sleep" * Sim.sleep_similarity user p +
    dget W_hybrid "style" * Sim.style_similarity user p +
    dget W_hybrid "smoking" * Sim.habit_match user.smoking p.smoking +
    dget W_hybrid "alcohol" * Sim.habit_match user.alcohol p.alcohol +
    dget W_hybrid "dietary" * Sim.categorical_similarity user.dietary p.dietary +
    dget W_hybrid "cleanliness" * Sim.categorical_similarity user.cleanliness p.cleanliness +
    dget W_hybrid "budget" * Sim.budget_similarity user p +
    dget W_hybrid "pace" * Sim.pace_similarity user p +
    dget W_hybrid "interests" * Sim.interests_similarity user p
  weighted / (if dsum W_hybrid = 0 then 1 else dsum W_hybrid)

/-- The triple (p, sc, S) appended for a gate survivor: sc is S softened
by trust. -/
def hybrid_entry (user : UserProfile) (p : Profile) : Profile × ℚ × ℚ :=
  (p, hybrid_raw user p * soft_trust (trust_multiplier p), hybrid_raw user p)

/-- safety_enhanced_empirical_hybrid: skip candidates below the trust
gate, score the survivors, sort descending by final score (stable) and
keep the top 8.  The Python function wraps this single list in a
one-entry dict; the embedding returns the list itself.  The weights
parameter is received but, exactly as in the source, never read. -/
def safety_enhanced_empirical_hybrid (user : UserProfile) (weights : List (String × ℚ))
    (profiles : List Profile) : List (Profile × ℚ × ℚ) :=
  (sortDescBy (fun e => e.2.1)
    ((profiles.filter fun p => decide (¬ trust_multiplier p < TRUST_GATE)).map
      (hybrid_entry user))).take 8

/-- compute_algorithms in src/hybrid_algorithm.py simply delegates to
safety_enhanced_empirical_hybrid. -/
def compute_algorithms (user : UserProfile) (weights : List (String × ℚ))
    (profiles : List Profile) : List (Profile × ℚ × ℚ) :=
  safety_enhanced_empirical_hybrid user weights profiles

end HybridAlgorithm

namespace RecommendationAlgorithms

/-- trust_multiplier in src/recommendation_algorithms.py (identical to
the hybrid copy). -/
def trust_multiplier (profile : Profile) : ℚ :=
  max 0 (min 1 (profile.trust.getD (1/2)))

/-- The bio_mode argument of base_score. -/
inductive BioMode
  | modeNone
  | semantic
  | safety
  | tie

/-- base_score: the twelve weighted components divided by
(sum(w.values()) or 1.0). -/
def base_score (user : UserProfile) (profile : Profile) (w : List (String × ℚ))
    (bio_mode : BioMode) : ℚ :=
  let bio : ℚ :=
    match bio_mode with
    | .semantic => Sim.semantic_bio_score user profile
    | .safety => Sim.safety_keyword_score user profile
    | .tie => 3/100 * Sim.semantic_bio_score user profile
    | .modeNone => 0
  let weighted :=
    dget w "pace" * Sim.pace_similarity user profile +
    dget w "budget" * Sim.budget_similarity user profile +
    dget w "interests" * Sim.interests_similarity user profile +
    dget w "style" * Sim.style_similarity user profile +
    dget w "sleep" * Sim.sleep_similarity user profile +
    dget w "smoking" * Sim.habit_match user.smoking profile.smoking +
    dget w "alcohol" * Sim.habit_match user.alcohol profile.alcohol +
    dget w "cleanliness" * Sim.categorical_similarity user.cleanliness profile.cleanliness +
    dget w "fitness" * Sim.categorical_similarity user.fitness profile.fitness +
    dget w "dietary" * Sim.categorical_similarity user.dietary profile.dietary +
    dget w "bio" * bio +
    dget w "demographics" * Sim.demographics_score user profile
  weighted / (if dsum w = 0 then 1 else dsum w)

/-- W1_raw of Algorithm 1 (Empirical): survey-derived weights, the
demographics entry summing the gender and age survey weights, every
habit and bio entry fixed to 0. -/
def W1_raw (weights : List (String × ℚ)) : List (String × ℚ) :=
  [("pace", dget weights "pace"), ("budget", dget weights "budget"),
   ("interests", dget weights "interests"), ("style", dget weights "style"),
   ("sleep", dget weights "sleep"),
   ("demographics", dget weights "gender" + dget weights "age"),
   ("smoking", 0), ("alcohol", 0), ("dietary", 0), ("cleanliness", 0),
   ("fitness", 0), ("bio", 0)]

/-- W1: W1_raw normalised by (its sum or 1.0). -/
def W1 (weights : List (String × ℚ)) : List (String × ℚ) :=
  let total := if dsum (W1_raw weights) = 0 then 1 else dsum (W1_raw weights)
  (W1_raw weights).map fun kv => (kv.1, kv.2 / total)

/-- The Empirical entry of compute_algorithms in
src/recommendation_algorithms.py (Algorithm 1): every candidate is
scored with base_score under W1 and bio_mode tie, the final score is the
raw score multiplied by the trust multiplier (hard multiply, no gate),
and the list is sorted descending by final score and cut to the top 1. -/
def algorithmEmpirical (user : UserProfile) (weights : List (String × ℚ))
    (profiles : List Profile) : List (Profile × ℚ × ℚ) :=
  (sortDescBy (fun e => e.2.1)
    (profiles.map fun p =>
      (p, base_score user p (W1 weights) BioMode.tie * trust_multiplier p,
          base_score user p (W1 weights) BioMode.tie))).take 1

end RecommendationAlgorithms

namespace App

/-- compute_hybrid_recommendations in src/app.py: the hybrid result list
cut to the top 6. -/
def compute_hybrid_recommendations (user : UserProfile) (weights : List (String × ℚ))
    (simulated_profiles : List Profile) : List (Profile × ℚ × ℚ) :=
  (HybridAlgorithm.compute_algorithms user weights simulated_profiles).take 6

end App

/-- An optional candidate attribute lies on the 1-3 scale when present. -/
def scaleOK (o : Option ℚ) : Prop := ∀ x, o = some x → 1 ≤ x ∧ x ≤ 3

/-- A habit value is blank when its Python normalisation
(value or empty).strip().lower() is the empty string; absent values are
blank. -/
def pyBlank (v : Option String) : Prop := Sim.pyNorm v = ""

instance (v : Option String) : Decidable (pyBlank v) :=
  inferInstanceAs (Decidable (Sim.pyNorm v = ""))

/-- The query of the spec scenario: pace 2, budget 2, interests Hiking,
style backpacking, gender female, age 28, empty bio. -/
def scenarioUser : UserProfile :=
  { pace := 2, budget := 2, interests := {"Hiking"}, style := some "backpacking",
    gender := some "female", age := some 28, bio := some "" }

/-- The single candidate of the spec scenario: id 1, trust 0.9, pace 2,
budget 2, interests Hiking, style backpacking, gender female, age 27. -/
def scenarioCandidate : Profile :=
  { id := 1, trust := some (9/10), pace := some 2, budget := some 2,
    interests := {"Hiking"}, style := some "backpacking", gender := some "female",
    age := some 27 }

/-- The weight configuration of the spec scenario. -/
def scenarioWeights : List (String × ℚ) :=
  [("pace", 2/10), ("budget", 2/10), ("interests", 3/10), ("style", 3/10)]

/-- A candidate whose stored trust 0.1 falls below the 0.7 gate. -/
def lowTrustCandidate : Profile := { trust := some (1/10) }

/-- A candidate carrying no trust attribute at all. -/
def noTrustCandidate : Profile := { }

/-- A weight configuration whose values sum to zero. -/
def zeroWeights : List (String × ℚ) := [("pace", 0)]

/-- A query with a two-token bio, for the bio-overlap asymmetry. -/
def bioUserTwo : UserProfile := { pace := 2, budget := 2, bio := some "hello world" }

/-- A candidate with a one-token bio. -/
def bioCandOne : Profile := { bio := some "hello" }

/-- The swapped query: the one-token bio on the query side. -/
def bioUserOne : UserProfile := { pace := 2, budget := 2, bio := some "hello" }

/-- The swapped candidate: the two-token bio on the candidate side. -/
def bioCandTwo : Profile := { bio := some "hello world" }

/-- A query with an empty interest set. -/
def emptyInterestUser : UserProfile := { pace := 2, budget := 2 }

/-- A candidate with an empty interest set. -/
def emptyInterestCandidate : Profile := { }

/-- A pool mixing the scenario candidate with a low-trust and a
trust-less candidate. -/
def scenarioPool : List Profile := [scenarioCandidate, lowTrustCandidate, noTrustCandidate]

section SortLemmas

variable {α : Type} (key : α → ℚ)

/-- Membership in an insertion step. -/
theorem mem_insertDescBy {x a : α} {l : List α} :
    a ∈ insertDescBy key x l ↔ a = x ∨ a ∈ l := by
  induction l with
  | nil => simp [insertDescBy]
  | cons y ys ih =>
    rw [insertDescBy]
    by_cases h : key x < key y
    · rw [if_pos h]
      simp only [List.mem_cons, ih]
      tauto
    · rw [if_neg h]
      simp only [List.mem_cons]

/-- Membership is preserved by the stable sort. -/
theorem mem_sortDescBy {a : α} {l : List α} :
    a ∈ sortDescBy key l ↔ a ∈ l := by
  induction l with
  | nil => simp [sortDescBy]
  | cons x xs ih =>
    rw [sortDescBy, mem_insertDescBy]
    simp [ih]

/-- An insertion step adds exactly one element. -/
theorem length_insertDescBy (x : α) (l : List α) :
    (insertDescBy key x l).length = l.length + 1 := by
  induction l with
  | nil => rfl
  | cons y ys ih =>
    rw [insertDescBy]
    by_cases h : key x < key y
    · rw [if_pos h]
      simp [ih]
    · rw [if_neg h]
      simp

/-- The stable sort preserves length. -/
theorem length_sortDescBy (l : List α) :
    (sortDescBy key l).length = l.length := by
  induction l with
  | nil => rfl
  | cons x xs ih =>
    rw [sortDescBy, length_insertDescBy, ih, List.length_cons]

/-- Inserting into a descending list keeps it descending. -/
theorem pairwise_insertDescBy {x : α} {l : List α}
    (h : l.Pairwise fun a b => key b ≤ key a) :
    (insertDescBy key x l).Pairwise fun a b => key b ≤ key a := by
  induction l with
  | nil => simp [insertDescBy]
  | cons y ys ih =>
    rcases List.pairwise_cons.mp h with ⟨hy, hys⟩
    rw [insertDescBy]
    by_cases hxy : key x < key y
    · rw [if_pos hxy]
      refine List.pairwise_cons.mpr ⟨?_, ih hys⟩
      intro b hb
      rcases (mem_insertDescBy key).mp hb with rfl | hbys
      · exact le_of_lt hxy
      · exact hy b hbys
    · push_neg at hxy
      rw [if_neg (not_lt.mpr hxy)]
      refine List.pairwise_cons.mpr ⟨?_, h⟩
      intro b hb
      rcases List.mem_cons.mp hb with rfl | hbys
      · exact hxy
      · exact le_trans (hy b hbys) hxy

/-- The output of the stable sort is descending in the key. -/
theorem sorted_sortDescBy (l : List α) :
    (sortDescBy key l).Pairwise fun a b => key b ≤ key a := by
  induction l with
  | nil => simp [sortDescBy]
  | cons x xs ih => exact pairwise_insertDescBy key ih

/-- Stability at an insertion step: on a descending list, filtering any
fixed key value out of the insertion of x gives the same list as
filtering x consed in front. -/
theorem filter_insertDescBy (q : ℚ) {x : α} {l : List α}
    (h : l.Pairwise fun a b => key b ≤ key a) :
    (insertDescBy key x l).filter (fun a => decide (key a = q)) =
      (x :: l).filter (fun a => decide (key a = q)) := by
  induction l with
  | nil => rfl
  | cons y ys ih =>
    rcases List.pairwise_cons.mp h with ⟨hy, hys⟩
    rw [insertDescBy]
    by_cases hxy : key x < key y
    · rw [if_pos hxy]
      by_cases hx : key x = q <;> by_cases hyq : key y = q
      · exact absurd (hx.trans hyq.symm) (ne_of_lt hxy)
      · simp only [List.filter_cons, ih hys]
        simp [hx, hyq]
      · simp only [List.filter_cons, ih hys]
        simp [hx, hyq]
      · simp only [List.filter_cons, ih hys]
        simp [hx, hyq]
    · rw [if_neg hxy]

/-- Stability of the sort: the elements carrying any fixed key value
appear in the sorted output exactly in their input order. -/
theorem filter_sortDescBy (q : ℚ) (l : List α) :
    (sortDescBy key l).filter (fun a => decide (key a = q)) =
      l.filter (fun a => decide (key a = q)) := by
  induction l with
  | nil => rfl
  | cons x xs ih =>
    rw [sortDescBy, filter_insertDescBy key q (sorted_sortDescBy key xs),
      List.filter_cons, List.filter_cons, ih]

end SortLemmas

section DictLemmas

/-- A lookup in a dict of nonnegative values is nonnegative. -/
theorem dget_nonneg {w : List (String × ℚ)} (hw : ∀ kv ∈ w, 0 ≤ kv.2) (k : String) :
    0 ≤ dget w k := by
  induction w with
  | nil => simp [dget]
  | cons kv rest ih =>
    rw [dget]
    by_cases h : kv.1 = k
    · rw [if_pos h]
      exact hw kv (List.mem_cons_self kv rest)
    · rw [if_neg h]
      exact ih fun x hx => hw x (List.mem_cons_of_mem kv hx)

/-- The sum of a dict of nonnegative values is nonnegative. -/
theorem dsum_nonneg {w : List (String × ℚ)} (hw : ∀ kv ∈ w, 0 ≤ kv.2) :
    0 ≤ dsum w := by
  induction w with
  | nil => simp [dsum]
  | cons kv rest ih =>
    rw [dsum]
    have h1 := hw kv (List.mem_cons_self kv rest)
    have h2 := ih fun x hx => hw x (List.mem_cons_of_mem kv hx)
    linarith

/-- In a dict of nonnegative values summing to zero, every lookup is
zero. -/
theorem dget_eq_zero_of_dsum_eq_zero {w : List (String × ℚ)}
    (hw : ∀ kv ∈ w, 0 ≤ kv.2) (hz : dsum w = 0) (k : String) :
    dget w k = 0 := by
  induction w with
  | nil => simp [dget]
  | cons kv rest ih =>
    rw [dsum] at hz
    have h1 := hw kv (List.mem_cons_self kv rest)
    have hrest : ∀ x ∈ rest, 0 ≤ x.2 := fun x hx => hw x (List.mem_cons_of_mem kv hx)
    have h2 := dsum_nonneg hrest
    have hkv : kv.2 = 0 := by linarith
    have hzr : dsum rest = 0 := by linarith
    rw [dget]
    by_cases h : kv.1 = k
    · rw [if_pos h]; exact hkv
    · rw [if_neg h]; exact ih hrest hzr

end DictLemmas

section BoundLemmas

/-- A quotient of natural counts with numerator at most denominator lies
in the unit interval. -/
theorem ratio_bounds {a b : ℕ} (hab : a ≤ b) (hb : 0 < b) :
    0 ≤ (a : ℚ) / (b : ℚ) ∧ (a : ℚ) / (b : ℚ) ≤ 1 := by
  constructor
  · positivity
  · rw [div_le_one (by exact_mod_cast hb)]
    exact_mod_cast hab

/-- pace_similarity lies in the unit interval on the 1-3 scale. -/
theorem pace_similarity_bounds {user : UserProfile} {profile : Profile}
    (h1 : 1 ≤ user.pace) (h2 : user.pace ≤ 3) (hp : scaleOK profile.pace) :
    0 ≤ Sim.pace_similarity user profile ∧ Sim.pace_similarity user profile ≤ 1 := by
  have hq : 1 ≤ profile.pace.getD 2 ∧ profile.pace.getD 2 ≤ 3 := by
    cases hpp : profile.pace with
    | none => norm_num
    | some x => simpa using hp x hpp
  have habs : |user.pace - profile.pace.getD 2| ≤ 2 := by
    rw [abs_le]
    constructor <;> linarith [hq.1, hq.2]
  have habs0 : 0 ≤ |user.pace - profile.pace.getD 2| := abs_nonneg _
  unfold Sim.pace_similarity
  constructor <;> linarith

/-- budget_similarity lies in the unit interval on the 1-3 scale. -/
theorem budget_similarity_bounds {user : UserProfile} {profile : Profile}
    (h1 : 1 ≤ user.budget) (h2 : user.budget ≤ 3) (hp : scaleOK profile.budget) :
    0 ≤ Sim.budget_similarity user profile ∧ Sim.budget_similarity user profile ≤ 1 := by
  have hq : 1 ≤ profile.budget.getD 2 ∧ profile.budget.getD 2 ≤ 3 := by
    cases hpp : profile.budget with
    | none => norm_num
    | some x => simpa using hp x hpp
  have habs : |user.budget - profile.budget.getD 2| ≤ 2 := by
    rw [abs_le]
    constructor <;> linarith [hq.1, hq.2]
  have habs0 : 0 ≤ |user.budget - profile.budget.getD 2| := abs_nonneg _
  unfold Sim.budget_similarity
  constructor <;> linarith

/-- interests_similarity lies in the unit interval. -/
theorem interests_similarity_bounds (user : UserProfile) (profile : Profile) :
    0 ≤ Sim.interests_similarity user profile ∧ Sim.interests_similarity user profile ≤ 1 := by
  simp only [Sim.interests_similarity]
  by_cases h : user.interests = ∅ ∧ profile.interests = ∅
  · rw [if_pos h]
    norm_num
  · rw [if_neg h]
    apply ratio_bounds
    · calc (user.interests ∩ profile.interests).card
          ≤ user.interests.card := Finset.card_le_card Finset.inter_subset_left
        _ ≤ max user.interests.card profile.interests.card := le_max_left _ _
        _ ≤ max (max user.interests.card profile.interests.card) 1 := le_max_left _ _
    · exact lt_of_lt_of_le Nat.zero_lt_one (le_max_right _ _)

/-- style_similarity is 0 or 1, hence in the unit interval. -/
theorem style_similarity_bounds (user : UserProfile) (profile : Profile) :
    0 ≤ Sim.style_similarity user profile ∧ Sim.style_similarity user profile ≤ 1 := by
  simp only [Sim.style_similarity]
  split <;> norm_num

/-- jaccard_overlap lies in the unit interval. -/
theorem jaccard_overlap_bounds (a b : Option (Finset String)) :
    0 ≤ Sim.jaccard_overlap a b ∧ Sim.jaccard_overlap a b ≤ 1 := by
  simp only [Sim.jaccard_overlap]
  by_cases h : a.getD ∅ = ∅ ∧ b.getD ∅ = ∅
  · rw [if_pos h]
    norm_num
  · rw [if_neg h]
    apply ratio_bounds
    · calc (a.getD ∅ ∩ b.getD ∅).card
          ≤ (a.getD ∅ ∪ b.getD ∅).card := Finset.card_le_card Finset.inter_subset_union
        _ ≤ max 1 (a.getD ∅ ∪ b.getD ∅).card := le_max_right _ _
    · exact lt_of_lt_of_le Nat.zero_lt_one (le_max_left _ _)

/-- sleep_similarity lies in the unit interval. -/
theorem sleep_similarity_bounds (user : UserProfile) (profile : Profile) :
    0 ≤ Sim.sleep_similarity user profile ∧ Sim.sleep_similarity user profile ≤ 1 :=
  jaccard_overlap_bounds user.sleep profile.sleep

/-- habit_match lies in the unit interval. -/
theorem habit_match_bounds (u p : Option String) :
    0 ≤ Sim.habit_match u p ∧ Sim.habit_match u p ≤ 1 := by
  simp only [Sim.habit_match]
  split
  · norm_num
  · split <;> norm_num

/-- categorical_similarity lies in the unit interval. -/
theorem categorical_similarity_bounds (u p : Option String) :
    0 ≤ Sim.categorical_similarity u p ∧ Sim.categorical_similarity u p ≤ 1 := by
  simp only [Sim.categorical_similarity]
  split
  · norm_num
  · split
    · norm_num
    · split <;> norm_num

/-- The gender contribution is 0 or 1. -/
theorem gender_points_bounds (ug pg : Option String) :
    0 ≤ Sim.gender_points ug pg ∧ Sim.gender_points ug pg ≤ 1 := by
  cases ug <;> cases pg <;> simp only [Sim.gender_points] <;> norm_num
  split <;> norm_num

/-- The lenient age contribution lies in the unit interval. -/
theorem age_points_bounds (ua pa : Option Int) :
    0 ≤ Sim.age_points ua pa ∧ Sim.age_points ua pa ≤ 1 := by
  cases ua <;> cases pa <;> simp only [Sim.age_points] <;> norm_num
  split
  · norm_num
  · split <;> norm_num

/-- The strict age contribution lies in the unit interval. -/
theorem age_points_strict_bounds (ua pa : Option Int) :
    0 ≤ Sim.age_points_strict ua pa ∧ Sim.age_points_strict ua pa ≤ 1 := by
  cases ua <;> cases pa <;> simp only [Sim.age_points_strict] <;> norm_num
  split
  · norm_num
  · split
    · norm_num
    · split <;> norm_num

/-- demographics_score lies in the unit interval. -/
theorem demographics_score_bounds (user : UserProfile) (profile : Profile) :
    0 ≤ Sim.demographics_score user profile ∧ Sim.demographics_score user profile ≤ 1 := by
  obtain ⟨hg, _⟩ := gender_points_bounds user.gender profile.gender
  obtain ⟨ha, _⟩ := age_points_bounds user.age profile.age
  simp only [Sim.demographics_score]
  constructor
  · have : (0:ℚ) ≤ min (Sim.gender_points user.gender profile.gender
        + Sim.age_points user.age profile.age) 2 := le_min (by linarith) (by norm_num)
    linarith
  · have : min (Sim.gender_points user.gender profile.gender
        + Sim.age_points user.age profile.age) 2 ≤ 2 := min_le_right _ _
    linarith

/-- demographics_strict lies in the unit interval. -/
theorem demographics_strict_bounds (user : UserProfile) (profile : Profile) :
    0 ≤ Sim.demographics_strict user profile ∧ Sim.demographics_strict user profile ≤ 1 := by
  obtain ⟨hg1, hg2⟩ := gender_points_bounds user.gender profile.gender
  obtain ⟨ha1, ha2⟩ := age_points_strict_bounds user.age profile.age
  simp only [Sim.demographics_strict]
  constructor <;> linarith

/-- safety_keyword_score lies in the unit interval. -/
theorem safety_keyword_score_bounds (user : UserProfile) (profile : Profile) :
    0 ≤ Sim.safety_keyword_score user profile ∧ Sim.safety_keyword_score user profile ≤ 1 := by
  simp only [Sim.safety_keyword_score]
  constructor
  · exact le_min (by norm_num) (by positivity)
  · exact min_le_left _ _

/-- semantic_bio_score lies in the unit interval. -/
theorem semantic_bio_score_bounds (user : UserProfile) (profile : Profile) :
    0 ≤ Sim.semantic_bio_score user profile ∧ Sim.semantic_bio_score user profile ≤ 1 := by
  simp only [Sim.semantic_bio_score]
  apply ratio_bounds
  · calc (Sim.tokenSet (Sim.replace_punct (lowerStr (user.bio.getD ""))) ∩
        Sim.tokenSet (Sim.replace_punct (lowerStr (profile.bio.getD "")))).card
        ≤ (Sim.tokenSet (Sim.replace_punct (lowerStr (user.bio.getD "")))).card :=
          Finset.card_le_card Finset.inter_subset_left
      _ ≤ max 1 (Sim.tokenSet (Sim.replace_punct (lowerStr (user.bio.getD "")))).card :=
          le_max_right _ _
  · exact lt_of_lt_of_le Nat.zero_lt_one (le_max_left _ _)

/-- The clamp inside trust_multiplier and soft_trust lies in the unit
interval. -/
theorem clamp_bounds (t : ℚ) : 0 ≤ max 0 (min 1 t) ∧ max 0 (min 1 t) ≤ 1 :=
  ⟨le_max_left _ _, max_le (by norm_num) (min_le_left _ _)⟩

/-- trust_multiplier lies in the unit interval. -/
theorem trust_multiplier_bounds (p : Profile) :
    0 ≤ HybridAlgorithm.trust_multiplier p ∧ HybridAlgorithm.trust_multiplier p ≤ 1 :=
  clamp_bounds _

/-- soft_trust lies between 0.6 and 1. -/
theorem soft_trust_bounds (t : ℚ) :
    3/5 ≤ HybridAlgorithm.soft_trust t ∧ HybridAlgorithm.soft_trust t ≤ 1 := by
  obtain ⟨h1, h2⟩ := clamp_bounds t
  simp only [HybridAlgorithm.soft_trust]
  constructor <;> linarith

end BoundLemmas

section HybridBounds

open HybridAlgorithm

/-- The hardcoded hybrid weights sum to 1.1, so the or-1.0 fallback in
the denominator is inert. -/
theorem dsum_W_hybrid : dsum W_hybrid = 11/10 := by
  norm_num [dsum, W_hybrid]

/-- The eleven lookups into the hardcoded hybrid weight dict. -/
theorem dget_W_hybrid :
    dget W_hybrid "demographics" = 35/100 ∧ dget W_hybrid "bio_safety" = 5/100 ∧
    dget W_hybrid "sleep" = 3/100 ∧ dget W_hybrid "style" = 2/100 ∧
    dget W_hybrid "smoking" = 3/100 ∧ dget W_hybrid "alcohol" = 3/100 ∧
    dget W_hybrid "dietary" = 2/100 ∧ dget W_hybrid "cleanliness" = 2/100 ∧
    dget W_hybrid "budget" = 25/100 ∧ dget W_hybrid "pace" = 20/100 ∧
    dget W_hybrid "interests" = 10/100 := by
  simp [dget, W_hybrid]

/-- The raw hybrid compatibility S lies in the unit interval whenever
the pace and budget attributes lie on the 1-3 scale. -/
theorem hybrid_raw_bounds {user : UserProfile} {p : Profile}
    (h1 : 1 ≤ user.pace) (h2 : user.pace ≤ 3) (h3 : 1 ≤ user.budget) (h4 : user.budget ≤ 3)
    (hpp : scaleOK p.pace) (hpb : scaleOK p.budget) :
    0 ≤ hybrid_raw user p ∧ hybrid_raw user p ≤ 1 := by
  obtain ⟨c1a, c1b⟩ := demographics_strict_bounds user p
  obtain ⟨c2a, c2b⟩ := safety_keyword_score_bounds user p
  obtain ⟨c3a, c3b⟩ := sleep_similarity_bounds user p
  obtain ⟨c4a, c4b⟩ := style_similarity_bounds user p
  obtain ⟨c5a, c5b⟩ := habit_match_bounds user.smoking p.smoking
  obtain ⟨c6a, c6b⟩ := habit_match_bounds user.alcohol p.alcohol
  obtain ⟨c7a, c7b⟩ := categorical_similarity_bounds user.dietary p.dietary
  obtain ⟨c8a, c8b⟩ := categorical_similarity_bounds user.cleanliness p.cleanliness
  obtain ⟨c9a, c9b⟩ := budget_similarity_bounds h3 h4 hpb
  obtain ⟨c10a, c10b⟩ := pace_similarity_bounds h1 h2 hpp
  obtain ⟨c11a, c11b⟩ := interests_similarity_bounds user p
  obtain ⟨w1, w2, w3, w4, w5, w6, w7, w8, w9, w10, w11⟩ := dget_W_hybrid
  simp only [hybrid_raw, dsum_W_hybrid, w1, w2, w3, w4, w5, w6, w7, w8, w9, w10, w11]
  rw [if_neg (by norm_num : ¬(11/10 : ℚ) = 0)]
  constructor
  · apply div_nonneg _ (by norm_num)
    linarith
  · rw [div_le_one (by norm_num)]
    linarith

/-- The softened final score of a candidate sits between 0.6 times the
raw score and the raw score. -/
theorem hybrid_final_bounds {user : UserProfile} {p : Profile}
    (h1 : 1 ≤ user.pace) (h2 : user.pace ≤ 3) (h3 : 1 ≤ user.budget) (h4 : user.budget ≤ 3)
    (hpp : scaleOK p.pace) (hpb : scaleOK p.budget) :
    3/5 * hybrid_raw user p ≤ hybrid_raw user p * soft_trust (trust_multiplier p) ∧
      hybrid_raw user p * soft_trust (trust_multiplier p) ≤ hybrid_raw user p := by
  obtain ⟨hr0, _⟩ := hybrid_raw_bounds h1 h2 h3 h4 hpp hpb
  obtain ⟨hs0, hs1⟩ := soft_trust_bounds (trust_multiplier p)
  constructor
  · calc 3/5 * hybrid_raw user p = hybrid_raw user p * (3/5) := by ring
      _ ≤ hybrid_raw user p * soft_trust (trust_multiplier p) :=
        mul_le_mul_of_nonneg_left hs0 hr0
  · calc hybrid_raw user p * soft_trust (trust_multiplier p)
        ≤ hybrid_raw user p * 1 := mul_le_mul_of_nonneg_left hs1 hr0
      _ = hybrid_raw user p := mul_one _

/-- Every element of the hybrid output is the entry of a pool candidate
that passed the trust gate. -/
theorem mem_hybrid {user : UserProfile} {w : List (String × ℚ)} {profiles : List Profile}
    {e : Profile × ℚ × ℚ}
    (he : e ∈ safety_enhanced_empirical_hybrid user w profiles) :
    ∃ p, p ∈ profiles ∧ ¬ trust_multiplier p < TRUST_GATE ∧ e = hybrid_entry user p := by
  have h1 : e ∈ sortDescBy (fun e => e.2.1)
      ((profiles.filter fun p => decide (¬ trust_multiplier p < TRUST_GATE)).map
        (hybrid_entry user)) := List.take_subset _ _ he
  rw [mem_sortDescBy] at h1
  rcases List.mem_map.mp h1 with ⟨p, hp, rfl⟩
  rcases List.mem_filter.mp hp with ⟨hmem, hgate⟩
  rw [decide_eq_true_eq] at hgate
  exact ⟨p, hmem, hgate, rfl⟩

/-- Every element of the Empirical output is the hard-multiply scored
triple of a pool candidate. -/
theorem mem_algorithmEmpirical {user : UserProfile} {w : List (String × ℚ)}
    {profiles : List Profile} {e : Profile × ℚ × ℚ}
    (he : e ∈ RecommendationAlgorithms.algorithmEmpirical user w profiles) :
    ∃ p, p ∈ profiles ∧
      e = (p, RecommendationAlgorithms.base_score user p (RecommendationAlgorithms.W1 w)
              RecommendationAlgorithms.BioMode.tie * RecommendationAlgorithms.trust_multiplier p,
            RecommendationAlgorithms.base_score user p (RecommendationAlgorithms.W1 w)
              RecommendationAlgorithms.BioMode.tie) := by
  have h1 := List.take_subset _ _ he
  rw [mem_sortDescBy] at h1
  rcases List.mem_map.mp h1 with ⟨p, hp, rfl⟩
  exact ⟨p, hp, rfl⟩

end HybridBounds

section EmpiricalBounds

open RecommendationAlgorithms

/-- trust_multiplier of the baseline module lies in the unit interval. -/
theorem rec_trust_multiplier_bounds (p : Profile) :
    0 ≤ RecommendationAlgorithms.trust_multiplier p ∧
      RecommendationAlgorithms.trust_multiplier p ≤ 1 :=
  clamp_bounds _

/-- base_score is nonnegative for a weight dict with nonnegative values,
in every bio mode, whenever pace and budget lie on the 1-3 scale. -/
theorem base_score_nonneg {user : UserProfile} {profile : Profile}
    {w : List (String × ℚ)} (m : BioMode)
    (hw : ∀ kv ∈ w, 0 ≤ kv.2)
    (h1 : 1 ≤ user.pace) (h2 : user.pace ≤ 3) (h3 : 1 ≤ user.budget) (h4 : user.budget ≤ 3)
    (hpp : scaleOK profile.pace) (hpb : scaleOK profile.budget) :
    0 ≤ base_score user profile w m := by
  obtain ⟨c1a, _⟩ := pace_similarity_bounds h1 h2 hpp
  obtain ⟨c2a, _⟩ := budget_similarity_bounds h3 h4 hpb
  obtain ⟨c3a, _⟩ := interests_similarity_bounds user profile
  obtain ⟨c4a, _⟩ := style_similarity_bounds user profile
  obtain ⟨c5a, _⟩ := sleep_similarity_bounds user profile
  obtain ⟨c6a, _⟩ := habit_match_bounds user.smoking profile.smoking
  obtain ⟨c7a, _⟩ := habit_match_bounds user.alcohol profile.alcohol
  obtain ⟨c8a, _⟩ := categorical_similarity_bounds user.cleanliness profile.cleanliness
  obtain ⟨c9a, _⟩ := categorical_similarity_bounds user.fitness profile.fitness
  obtain ⟨c10a, _⟩ := categorical_similarity_bounds user.dietary profile.dietary
  obtain ⟨c12a, _⟩ := demographics_score_bounds user profile
  obtain ⟨s1, _⟩ := semantic_bio_score_bounds user profile
  obtain ⟨s2, _⟩ := safety_keyword_score_bounds user profile
  have m1 := mul_nonneg (dget_nonneg hw "pace") c1a
  have m2 := mul_nonneg (dget_nonneg hw "budget") c2a
  have m3 := mul_nonneg (dget_nonneg hw "interests") c3a
  have m4 := mul_nonneg (dget_nonneg hw "style") c4a
  have m5 := mul_nonneg (dget_nonneg hw "sleep") c5a
  have m6 := mul_nonneg (dget_nonneg hw "smoking") c6a
  have m7 := mul_nonneg (dget_nonneg hw "alcohol") c7a
  have m8 := mul_nonneg (dget_nonneg hw "cleanliness") c8a
  have m9 := mul_nonneg (dget_nonneg hw "fitness") c9a
  have m10 := mul_nonneg (dget_nonneg hw "dietary") c10a
  have m12 := mul_nonneg (dget_nonneg hw "demographics") c12a
  have mb1 := mul_nonneg (dget_nonneg hw "bio") s1
  have mb2 := mul_nonneg (dget_nonneg hw "bio") s2
  have mb3 := mul_nonneg (dget_nonneg hw "bio")
    (mul_nonneg (by norm_num : (0:ℚ) ≤ 3/100) s1)
  have hden : (0:ℚ) ≤ (if dsum w = 0 then 1 else dsum w) := by
    by_cases hz : dsum w = 0
    · rw [if_pos hz]
      norm_num
    · rw [if_neg hz]
      exact dsum_nonneg hw
  cases m
  all_goals
    simp only [base_score]
  all_goals
    apply div_nonneg _ hden
  · linarith
  · linarith
  · linarith
  · linarith

/-- The normalised Empirical weights W1 have nonnegative values whenever
the survey weights do. -/
theorem W1_values_nonneg {weights : List (String × ℚ)}
    (hw : ∀ kv ∈ weights, 0 ≤ kv.2) :
    ∀ kv ∈ W1 weights, 0 ≤ kv.2 := by
  have hraw : ∀ kv ∈ W1_raw weights, 0 ≤ kv.2 := by
    intro kv hkv
    simp only [W1_raw, List.mem_cons, List.not_mem_nil, or_false] at hkv
    rcases hkv with rfl | rfl | rfl | rfl | rfl | rfl | rfl | rfl | rfl | rfl | rfl | rfl
    · exact dget_nonneg hw "pace"
    · exact dget_nonneg hw "budget"
    · exact dget_nonneg hw "interests"
    · exact dget_nonneg hw "style"
    · exact dget_nonneg hw "sleep"
    · exact add_nonneg (dget_nonneg hw "gender") (dget_nonneg hw "age")
    · exact le_refl 0
    · exact le_refl 0
    · exact le_refl 0
    · exact le_refl 0
    · exact le_refl 0
    · exact le_refl 0
  have htot : (0:ℚ) < (if dsum (W1_raw weights) = 0 then 1 else dsum (W1_raw weights)) := by
    by_cases hz : dsum (W1_raw weights) = 0
    · rw [if_pos hz]
      norm_num
    · rw [if_neg hz]
      exact lt_of_le_of_ne (dsum_nonneg hraw) (Ne.symm hz)
  intro kv hkv
  simp only [W1] at hkv
  rcases List.mem_map.mp hkv with ⟨a, ha, rfl⟩
  exact div_nonneg (hraw a ha) (le_of_lt htot)

end EmpiricalBounds

/-- C1: any candidate whose clamped trust value lies strictly below 0.7
never appears in the output of the hybrid ranking entry point: gated
candidates are skipped before any component is computed and contribute
nothing to the result list. -/
theorem C1_trust_gate_exclusivity (user : UserProfile) (w : List (String × ℚ))
    (profiles : List Profile) (cand : Profile) (e : Profile × ℚ × ℚ)
    (hlow : HybridAlgorithm.trust_multiplier cand < HybridAlgorithm.TRUST_GATE)
    (he : e ∈ HybridAlgorithm.safety_enhanced_empirical_hybrid user w profiles) :
    e.1 ≠ cand := by
  rcases mem_hybrid he with ⟨p, _, hgate, rfl⟩
  intro hc
  have hpc : p = cand := hc
  subst hpc
  exact hgate hlow

/-- C2: whenever pace and budget lie on the 1-3 scale, every triple
(candidate, finalScore, rawScore) of the hybrid ranking satisfies
0 at most rawScore at most 1 and 0.6 rawScore at most finalScore at most
rawScore (soft floor), and every triple of the baseline Empirical
algorithm (hard multiply, nonnegative survey weights) satisfies
0 at most finalScore at most rawScore. -/
theorem C2_score_bounds (user : UserProfile) (w : List (String × ℚ))
    (profiles : List Profile) (e : Profile × ℚ × ℚ)
    (h1 : 1 ≤ user.pace) (h2 : user.pace ≤ 3) (h3 : 1 ≤ user.budget) (h4 : user.budget ≤ 3)
    (hp : ∀ p ∈ profiles, scaleOK p.pace ∧ scaleOK p.budget) :
    (e ∈ HybridAlgorithm.safety_enhanced_empirical_hybrid user w profiles →
      0 ≤ e.2.2 ∧ e.2.2 ≤ 1 ∧ 3/5 * e.2.2 ≤ e.2.1 ∧ e.2.1 ≤ e.2.2) ∧
    ((∀ kv ∈ w, 0 ≤ kv.2) →
      e ∈ RecommendationAlgorithms.algorithmEmpirical user w profiles →
      0 ≤ e.2.1 ∧ e.2.1 ≤ e.2.2) := by
  constructor
  · intro he
    rcases mem_hybrid he with ⟨p, hpmem, _, rfl⟩
    obtain ⟨hpp, hpb⟩ := hp p hpmem
    obtain ⟨r0, r1⟩ := hybrid_raw_bounds h1 h2 h3 h4 hpp hpb
    obtain ⟨f0, f1⟩ := hybrid_final_bounds h1 h2 h3 h4 hpp hpb
    exact ⟨r0, r1, f0, f1⟩
  · intro hw he
    rcases mem_algorithmEmpirical he with ⟨p, hpmem, rfl⟩
    obtain ⟨hpp, hpb⟩ := hp p hpmem
    have hS := base_score_nonneg RecommendationAlgorithms.BioMode.tie
      (W1_values_nonneg hw) h1 h2 h3 h4 hpp hpb
    obtain ⟨t0, t1⟩ := rec_trust_multiplier_bounds p
    constructor
    · exact mul_nonneg hS t0
    · show RecommendationAlgorithms.base_score user p (RecommendationAlgorithms.W1 w)
          RecommendationAlgorithms.BioMode.tie * RecommendationAlgorithms.trust_multiplier p
          ≤ RecommendationAlgorithms.base_score user p (RecommendationAlgorithms.W1 w)
              RecommendationAlgorithms.BioMode.tie
      calc RecommendationAlgorithms.base_score user p (RecommendationAlgorithms.W1 w)
            RecommendationAlgorithms.BioMode.tie * RecommendationAlgorithms.trust_multiplier p
          ≤ RecommendationAlgorithms.base_score user p (RecommendationAlgorithms.W1 w)
              RecommendationAlgorithms.BioMode.tie * 1 := mul_le_mul_of_nonneg_left t1 hS
        _ = _ := mul_one _

/-- C3: the ranked output is sorted descending by finalScore, its length
is at most the hybrid top 8 and at most the number of candidates passing
the gate, candidates of any fixed finalScore appear in candidate pool
iteration order (stable sort, no secondary key), and the application
layer keeps at most the top 6. -/
theorem C3_ordering_invariant (user : UserProfile) (w : List (String × ℚ))
    (profiles pool : List Profile) :
    List.Pairwise (fun a b => b.2.1 ≤ a.2.1)
      (HybridAlgorithm.safety_enhanced_empirical_hybrid user w profiles) ∧
    (HybridAlgorithm.safety_enhanced_empirical_hybrid user w profiles).length ≤ 8 ∧
    (HybridAlgorithm.safety_enhanced_empirical_hybrid user w profiles).length ≤
      (profiles.filter fun p =>
        decide (¬ HybridAlgorithm.trust_multiplier p < HybridAlgorithm.TRUST_GATE)).length ∧
    (∀ q : ℚ,
      List.Sublist
        (((HybridAlgorithm.safety_enhanced_empirical_hybrid user w profiles).filter
            (fun e => decide (e.2.1 = q))).map Prod.fst)
        (profiles.filter fun p =>
          decide (¬ HybridAlgorithm.trust_multiplier p < HybridAlgorithm.TRUST_GATE))) ∧
    (App.compute_hybrid_recommendations user w pool).length ≤ 6 := by
  refine ⟨?_, ?_, ?_, ?_, ?_⟩
  · exact List.Pairwise.sublist (List.take_sublist 8 _)
      (sorted_sortDescBy (fun e : Profile × ℚ × ℚ => e.2.1) _)
  · simp only [HybridAlgorithm.safety_enhanced_empirical_hybrid]
    rw [List.length_take]
    exact min_le_left _ _
  · simp only [HybridAlgorithm.safety_enhanced_empirical_hybrid]
    rw [List.length_take, length_sortDescBy, List.length_map]
    exact min_le_right _ _
  · intro q
    have s1 : List.Sublist
        ((HybridAlgorithm.safety_enhanced_empirical_hybrid user w profiles).filter
          (fun e => decide (e.2.1 = q)))
        ((sortDescBy (fun e => e.2.1)
          ((profiles.filter fun p =>
            decide (¬ HybridAlgorithm.trust_multiplier p < HybridAlgorithm.TRUST_GATE)).map
              (HybridAlgorithm.hybrid_entry user))).filter (fun e => decide (e.2.1 = q))) :=
      List.Sublist.filter _ (List.take_sublist 8 _)
    have s2 := filter_sortDescBy (fun e : Profile × ℚ × ℚ => e.2.1) q
      ((profiles.filter fun p =>
        decide (¬ HybridAlgorithm.trust_multiplier p < HybridAlgorithm.TRUST_GATE)).map
          (HybridAlgorithm.hybrid_entry user))
    rw [s2] at s1
    have s3 := List.filter_sublist (p := fun e : Profile × ℚ × ℚ => decide (e.2.1 = q))
      ((profiles.filter fun p =>
        decide (¬ HybridAlgorithm.trust_multiplier p < HybridAlgorithm.TRUST_GATE)).map
          (HybridAlgorithm.hybrid_entry user))
    have hsub := s1.trans s3
    have hmap := List.Sublist.map Prod.fst hsub
    rwa [List.map_map, show Prod.fst ∘ HybridAlgorithm.hybrid_entry user = id from rfl,
      List.map_id] at hmap
  · simp only [App.compute_hybrid_recommendations]
    rw [List.length_take]
    exact min_le_left _ _

section ScenarioEval

/-- The strict demographics of the scenario pair: gender match and age
difference 1 give the full score. -/
theorem scenario_demographics_strict :
    Sim.demographics_strict scenarioUser scenarioCandidate = 1 := by
  simp [Sim.demographics_strict, Sim.gender_points, Sim.age_points_strict,
    scenarioUser, scenarioCandidate]
  norm_num

/-- The lenient demographics of the scenario pair is also full. -/
theorem scenario_demographics_score :
    Sim.demographics_score scenarioUser scenarioCandidate = 1 := by
  simp [Sim.demographics_score, Sim.gender_points, Sim.age_points,
    scenarioUser, scenarioCandidate]
  norm_num

/-- The scenario bios contain no safety keyword. -/
theorem scenario_safety_keyword :
    Sim.safety_keyword_score scenarioUser scenarioCandidate = 0 := by
  have h : (Sim.tokenSet (Sim.replace_punct (lowerStr " ")) ∩
      Sim.SAFETY_KEYWORDS).card = 0 := by decide
  simp [Sim.safety_keyword_score, scenarioUser, scenarioCandidate, h]

/-- The scenario sleep sets are both absent. -/
theorem scenario_sleep : Sim.sleep_similarity scenarioUser scenarioCandidate = 0 := by
  simp [Sim.sleep_similarity, Sim.jaccard_overlap, scenarioUser, scenarioCandidate]

/-- The scenario styles match. -/
theorem scenario_style : Sim.style_similarity scenarioUser scenarioCandidate = 1 := by
  simp [Sim.style_similarity, scenarioUser, scenarioCandidate]

/-- The scenario smoking habit is unknown on both sides. -/
theorem scenario_smoking :
    Sim.habit_match scenarioUser.smoking scenarioCandidate.smoking = 1/2 := by
  have h : Sim.pyNorm none = "" := by decide
  simp [Sim.habit_match, scenarioUser, scenarioCandidate, h]

/-- The scenario alcohol habit is unknown on both sides. -/
theorem scenario_alcohol :
    Sim.habit_match scenarioUser.alcohol scenarioCandidate.alcohol = 1/2 := by
  have h : Sim.pyNorm none = "" := by decide
  simp [Sim.habit_match, scenarioUser, scenarioCandidate, h]

/-- The scenario dietary values are blank on both sides. -/
theorem scenario_dietary :
    Sim.categorical_similarity scenarioUser.dietary scenarioCandidate.dietary = 0 := by
  have h : Sim.pyNorm none = "" := by decide
  simp [Sim.categorical_similarity, scenarioUser, scenarioCandidate, h]

/-- The scenario cleanliness values are blank on both sides. -/
theorem scenario_cleanliness :
    Sim.categorical_similarity scenarioUser.cleanliness scenarioCandidate.cleanliness = 0 := by
  have h : Sim.pyNorm none = "" := by decide
  simp [Sim.categorical_similarity, scenarioUser, scenarioCandidate, h]

/-- The scenario fitness values are blank on both sides. -/
theorem scenario_fitness :
    Sim.categorical_similarity scenarioUser.fitness scenarioCandidate.fitness = 0 := by
  have h : Sim.pyNorm none = "" := by decide
  simp [Sim.categorical_similarity, scenarioUser, scenarioCandidate, h]

/-- The scenario budgets agree. -/
theorem scenario_budget : Sim.budget_similarity scenarioUser scenarioCandidate = 1 := by
  simp [Sim.budget_similarity, scenarioUser, scenarioCandidate]

/-- The scenario paces agree. -/
theorem scenario_pace : Sim.pace_similarity scenarioUser scenarioCandidate = 1 := by
  simp [Sim.pace_similarity, scenarioUser, scenarioCandidate]

/-- The scenario interest sets coincide. -/
theorem scenario_interests :
    Sim.interests_similarity scenarioUser scenarioCandidate = 1 := by
  simp [Sim.interests_similarity, scenarioUser, scenarioCandidate]

/-- The scenario semantic bio overlap is zero: the query bio is empty. -/
theorem scenario_semantic :
    Sim.semantic_bio_score scenarioUser scenarioCandidate = 0 := by
  have h : (Sim.tokenSet (Sim.replace_punct (lowerStr "")) ∩
      Sim.tokenSet (Sim.replace_punct (lowerStr ""))).card = 0 := by decide
  have h2 : (Sim.tokenSet (Sim.replace_punct (lowerStr ""))).card = 0 := by decide
  simp [Sim.semantic_bio_score, scenarioUser, scenarioCandidate, h, h2]

/-- The scenario candidate has clamped trust 0.9. -/
theorem scenario_trust : HybridAlgorithm.trust_multiplier scenarioCandidate = 9/10 := by
  simp [HybridAlgorithm.trust_multiplier, scenarioCandidate]
  norm_num [min_def, max_def]

/-- The low-trust candidate has clamped trust 0.1. -/
theorem low_trust : HybridAlgorithm.trust_multiplier lowTrustCandidate = 1/10 := by
  simp [HybridAlgorithm.trust_multiplier, lowTrustCandidate]
  norm_num [min_def, max_def]

/-- The trust-less candidate receives the default 0.5. -/
theorem none_trust : HybridAlgorithm.trust_multiplier noTrustCandidate = 1/2 := by
  simp [HybridAlgorithm.trust_multiplier, noTrustCandidate]
  norm_num [min_def, max_def]

/-- The scenario candidate passes the 0.7 gate. -/
theorem gate_scenario :
    decide (¬ HybridAlgorithm.trust_multiplier scenarioCandidate <
      HybridAlgorithm.TRUST_GATE) = true := by
  simp only [decide_eq_true_eq, scenario_trust, HybridAlgorithm.TRUST_GATE]
  norm_num

/-- The low-trust candidate is stopped by the gate. -/
theorem gate_low :
    decide (¬ HybridAlgorithm.trust_multiplier lowTrustCandidate <
      HybridAlgorithm.TRUST_GATE) = false := by
  simp only [decide_eq_false_iff_not, low_trust, HybridAlgorithm.TRUST_GATE, not_not]
  norm_num

/-- The trust-less candidate is stopped by the gate. -/
theorem gate_none :
    decide (¬ HybridAlgorithm.trust_multiplier noTrustCandidate <
      HybridAlgorithm.TRUST_GATE) = false := by
  simp only [decide_eq_false_iff_not, none_trust, HybridAlgorithm.TRUST_GATE, not_not]
  norm_num

/-- The raw hybrid compatibility of the scenario pair is 19/22, not the
1.0 the spec scenario expects: the hybrid scores with its internal
W_hybrid (with weighted sum 0.95 and weight total 1.1), not with the
passed weight configuration. -/
theorem scenario_hybrid_raw :
    HybridAlgorithm.hybrid_raw scenarioUser scenarioCandidate = 19/22 := by
  obtain ⟨w1, w2, w3, w4, w5, w6, w7, w8, w9, w10, w11⟩ := dget_W_hybrid
  simp only [HybridAlgorithm.hybrid_raw, dsum_W_hybrid,
    w1, w2, w3, w4, w5, w6, w7, w8, w9, w10, w11,
    scenario_demographics_strict, scenario_safety_keyword, scenario_sleep,
    scenario_style, scenario_smoking, scenario_alcohol, scenario_dietary,
    scenario_cleanliness, scenario_budget, scenario_pace, scenario_interests]
  rw [if_neg (by norm_num : ¬(11/10 : ℚ) = 0)]
  norm_num

/-- The scenario entry: final score 228/275, raw score 19/22. -/
theorem scenario_entry :
    HybridAlgorithm.hybrid_entry scenarioUser scenarioCandidate =
      (scenarioCandidate, 228/275, 19/22) := by
  simp only [HybridAlgorithm.hybrid_entry, scenario_hybrid_raw, scenario_trust,
    HybridAlgorithm.soft_trust]
  norm_num [min_def, max_def]

/-- Full evaluation of the hybrid ranking on the spec scenario. -/
theorem scenario_hybrid_eval :
    HybridAlgorithm.safety_enhanced_empirical_hybrid scenarioUser scenarioWeights
      [scenarioCandidate] = [(scenarioCandidate, 228/275, 19/22)] := by
  simp only [HybridAlgorithm.safety_enhanced_empirical_hybrid, List.filter_cons,
    List.filter_nil, gate_scenario, if_true, List.map_cons, List.map_nil,
    scenario_entry, sortDescBy, insertDescBy, List.take]

/-- Full evaluation of the hybrid ranking on the mixed pool: only the
scenario candidate survives the gate. -/
theorem pool_hybrid_eval :
    HybridAlgorithm.safety_enhanced_empirical_hybrid scenarioUser scenarioWeights
      scenarioPool = [(scenarioCandidate, 228/275, 19/22)] := by
  simp only [HybridAlgorithm.safety_enhanced_empirical_hybrid, scenarioPool,
    List.filter_cons, List.filter_nil, gate_scenario, gate_low, gate_none,
    if_true, if_false, List.map_cons, List.map_nil,
    scenario_entry, sortDescBy, insertDescBy, List.take]

/-- The raw Empirical weights of the scenario configuration sum to 1. -/
theorem scenario_W1_raw_sum :
    dsum (RecommendationAlgorithms.W1_raw scenarioWeights) = 1 := by
  simp [RecommendationAlgorithms.W1_raw, dsum, dget, scenarioWeights]
  norm_num

/-- The normalised Empirical weights of the scenario configuration. -/
theorem scenario_W1 :
    RecommendationAlgorithms.W1 scenarioWeights =
      [("pace", 1/5), ("budget", 1/5), ("interests", 3/10), ("style", 3/10),
       ("sleep", 0), ("demographics", 0), ("smoking", 0), ("alcohol", 0),
       ("dietary", 0), ("cleanliness", 0), ("fitness", 0), ("bio", 0)] := by
  simp only [RecommendationAlgorithms.W1, scenario_W1_raw_sum]
  rw [if_neg (by norm_num : ¬(1:ℚ) = 0)]
  simp [RecommendationAlgorithms.W1_raw, dget, scenarioWeights]
  norm_num

/-- The baseline trust multiplier of the scenario candidate is 0.9. -/
theorem scenario_rec_trust :
    RecommendationAlgorithms.trust_multiplier scenarioCandidate = 9/10 := by
  simp [RecommendationAlgorithms.trust_multiplier, scenarioCandidate]
  norm_num [min_def, max_def]

/-- Under the scenario weight configuration the baseline base_score of
the scenario pair is exactly 1: all four weighted components match. -/
theorem scenario_base_score :
    RecommendationAlgorithms.base_score scenarioUser scenarioCandidate
      (RecommendationAlgorithms.W1 scenarioWeights)
      RecommendationAlgorithms.BioMode.tie = 1 := by
  have hsum : dsum (RecommendationAlgorithms.W1 scenarioWeights) = 1 := by
    rw [scenario_W1]
    norm_num [dsum]
  have hdg : ∀ k : String, dget (RecommendationAlgorithms.W1 scenarioWeights) k =
      dget [("pace", (1:ℚ)/5), ("budget", 1/5), ("interests", 3/10), ("style", 3/10),
       ("sleep", 0), ("demographics", 0), ("smoking", 0), ("alcohol", 0),
       ("dietary", 0), ("cleanliness", 0), ("fitness", 0), ("bio", 0)] k := by
    intro k
    rw [scenario_W1]
  simp only [RecommendationAlgorithms.base_score, hsum, hdg, dget,
    scenario_pace, scenario_budget, scenario_interests, scenario_style,
    scenario_sleep, scenario_smoking, scenario_alcohol, scenario_cleanliness,
    scenario_fitness, scenario_dietary, scenario_semantic,
    scenario_demographics_score]
  rw [if_neg (by norm_num : ¬(1:ℚ) = 0)]
  norm_num
  rw [scenario_W1_raw_sum, if_neg (by norm_num : ¬(1:ℚ) = 0)]
  norm_num
  simp
  norm_num

/-- Full evaluation of the baseline Empirical algorithm on the spec
scenario: raw score 1, hard-multiplied final score 0.9. -/
theorem scenario_empirical_eval :
    RecommendationAlgorithms.algorithmEmpirical scenarioUser scenarioWeights
      [scenarioCandidate] = [(scenarioCandidate, 9/10, 1)] := by
  simp only [RecommendationAlgorithms.algorithmEmpirical, List.map_cons, List.map_nil,
    scenario_base_score, scenario_rec_trust, sortDescBy, insertDescBy, List.take]
  norm_num

end ScenarioEval

/-- jaccard_overlap is symmetric in its two optional sets. -/
theorem jaccard_overlap_comm (a b : Option (Finset String)) :
    Sim.jaccard_overlap a b = Sim.jaccard_overlap b a := by
  simp only [Sim.jaccard_overlap]
  by_cases h : a.getD ∅ = ∅ ∧ b.getD ∅ = ∅
  · rw [if_pos h, if_pos ⟨h.2, h.1⟩]
  · rw [if_neg h, if_neg (fun hc => h ⟨hc.2, hc.1⟩), Finset.inter_comm, Finset.union_comm]

/-- C10: the hybrid entry point ignores its weights argument: any two
weight configurations produce identical output, and compute_algorithms
is the same function. -/
theorem C10_weights_ignored (user : UserProfile) (w1 w2 : List (String × ℚ))
    (profiles : List Profile) :
    HybridAlgorithm.safety_enhanced_empirical_hybrid user w1 profiles =
      HybridAlgorithm.safety_enhanced_empirical_hybrid user w2 profiles ∧
    HybridAlgorithm.compute_algorithms user w1 profiles =
      HybridAlgorithm.safety_enhanced_empirical_hybrid user w1 profiles :=
  ⟨rfl, rfl⟩

/-- C9: a candidate with no trust attribute receives the default
normalised trust 0.5, which is below the 0.7 gate, so it never appears
in the hybrid output. -/
theorem C9_missing_trust_excluded (user : UserProfile) (w : List (String × ℚ))
    (profiles : List Profile) (cand : Profile) (e : Profile × ℚ × ℚ)
    (hnone : cand.trust = none)
    (he : e ∈ HybridAlgorithm.safety_enhanced_empirical_hybrid user w profiles) :
    HybridAlgorithm.trust_multiplier cand = 1/2 ∧ e.1 ≠ cand := by
  have htm : HybridAlgorithm.trust_multiplier cand = 1/2 := by
    simp [HybridAlgorithm.trust_multiplier, hnone]
    norm_num [min_def, max_def]
  refine ⟨htm, ?_⟩
  rcases mem_hybrid he with ⟨p, _, hgate, rfl⟩
  intro hc
  have hpc : p = cand := hc
  subst hpc
  apply hgate
  rw [htm]
  norm_num [HybridAlgorithm.TRUST_GATE]

/-- C9 witness: on the mixed pool the trust-less candidate is assigned
0.5 and the only output entry is not that candidate. -/
theorem C9_witness :
    HybridAlgorithm.trust_multiplier noTrustCandidate = 1/2 ∧
    ((scenarioCandidate, (228:ℚ)/275, (19:ℚ)/22) : Profile × ℚ × ℚ).1 ≠ noTrustCandidate :=
  C9_missing_trust_excluded scenarioUser scenarioWeights scenarioPool noTrustCandidate
    (scenarioCandidate, 228/275, 19/22) rfl
    (by rw [pool_hybrid_eval]; exact List.mem_singleton.mpr rfl)

/-- C1 witness: the low-trust candidate of the mixed pool is below the
gate and the only output entry is not that candidate. -/
theorem C1_witness :
    HybridAlgorithm.trust_multiplier lowTrustCandidate < HybridAlgorithm.TRUST_GATE ∧
    ((scenarioCandidate, (228:ℚ)/275, (19:ℚ)/22) : Profile × ℚ × ℚ).1 ≠ lowTrustCandidate := by
  have hlow : HybridAlgorithm.trust_multiplier lowTrustCandidate <
      HybridAlgorithm.TRUST_GATE := by
    rw [low_trust]
    norm_num [HybridAlgorithm.TRUST_GATE]
  exact ⟨hlow, C1_trust_gate_exclusivity scenarioUser scenarioWeights scenarioPool
    lowTrustCandidate (scenarioCandidate, 228/275, 19/22) hlow
    (by rw [pool_hybrid_eval]; exact List.mem_singleton.mpr rfl)⟩

/-- C2 witness: the score bounds instantiated on the spec scenario for
both the hybrid (soft floor) and the Empirical (hard multiply) outputs. -/
theorem C2_witness :
    (0 ≤ ((scenarioCandidate, (228:ℚ)/275, (19:ℚ)/22) : Profile × ℚ × ℚ).2.2 ∧
      ((scenarioCandidate, (228:ℚ)/275, (19:ℚ)/22) : Profile × ℚ × ℚ).2.2 ≤ 1 ∧
      3/5 * ((scenarioCandidate, (228:ℚ)/275, (19:ℚ)/22) : Profile × ℚ × ℚ).2.2 ≤
        ((scenarioCandidate, (228:ℚ)/275, (19:ℚ)/22) : Profile × ℚ × ℚ).2.1 ∧
      ((scenarioCandidate, (228:ℚ)/275, (19:ℚ)/22) : Profile × ℚ × ℚ).2.1 ≤
        ((scenarioCandidate, (228:ℚ)/275, (19:ℚ)/22) : Profile × ℚ × ℚ).2.2) ∧
    (0 ≤ ((scenarioCandidate, (9:ℚ)/10, (1:ℚ)) : Profile × ℚ × ℚ).2.1 ∧
      ((scenarioCandidate, (9:ℚ)/10, (1:ℚ)) : Profile × ℚ × ℚ).2.1 ≤
        ((scenarioCandidate, (9:ℚ)/10, (1:ℚ)) : Profile × ℚ × ℚ).2.2) := by
  have hscale : ∀ p ∈ [scenarioCandidate], scaleOK p.pace ∧ scaleOK p.budget := by
    intro p hp
    simp only [List.mem_singleton] at hp
    subst hp
    constructor <;> (intro x hx; simp [scenarioCandidate] at hx; subst hx; norm_num)
  have hwn : ∀ kv ∈ scenarioWeights, 0 ≤ kv.2 := by
    intro kv hkv
    simp [scenarioWeights] at hkv
    rcases hkv with rfl | rfl | rfl | rfl <;> norm_num
  have h1 := (C2_score_bounds scenarioUser scenarioWeights [scenarioCandidate]
      (scenarioCandidate, 228/275, 19/22)
      (by norm_num [scenarioUser]) (by norm_num [scenarioUser])
      (by norm_num [scenarioUser]) (by norm_num [scenarioUser]) hscale).1
      (by rw [scenario_hybrid_eval]; exact List.mem_singleton.mpr rfl)
  have h2 := (C2_score_bounds scenarioUser scenarioWeights [scenarioCandidate]
      (scenarioCandidate, 9/10, 1)
      (by norm_num [scenarioUser]) (by norm_num [scenarioUser])
      (by norm_num [scenarioUser]) (by norm_num [scenarioUser]) hscale).2 hwn
      (by rw [scenario_empirical_eval]; exact List.mem_singleton.mpr rfl)
  exact ⟨h1, h2⟩

/-- C4 counterexample: on the spec scenario the hybrid ranking does not
return rawScore 1.0 with finalScore 0.96. -/
theorem C4_counterexample :
    HybridAlgorithm.safety_enhanced_empirical_hybrid scenarioUser scenarioWeights
      [scenarioCandidate] ≠ [(scenarioCandidate, 96/100, 1)] := by
  rw [scenario_hybrid_eval]
  intro h
  simp only [List.cons.injEq, Prod.mk.injEq] at h
  norm_num at h

/-- C4 amended: on the spec scenario the hybrid returns rawScore 19/22
(about 0.864) and finalScore 228/275 = (0.6 + 0.4 times 0.9) times 19/22
(about 0.829), because the entry point scores with its internal W_hybrid
and ignores the passed weights; the expected rawScore 1.0 appears only
in the baseline base_score aggregation under the passed weights, where
the hard multiply yields finalScore 0.9. -/
theorem C4_amended :
    HybridAlgorithm.safety_enhanced_empirical_hybrid scenarioUser scenarioWeights
      [scenarioCandidate] = [(scenarioCandidate, 228/275, 19/22)] ∧
    (228:ℚ)/275 = (3/5 + 2/5 * (9/10)) * (19/22) ∧
    RecommendationAlgorithms.algorithmEmpirical scenarioUser scenarioWeights
      [scenarioCandidate] = [(scenarioCandidate, 9/10, 1)] :=
  ⟨scenario_hybrid_eval, by norm_num, scenario_empirical_eval⟩

/-- C5 counterexample: with a zero-sum weight configuration base_score
is total and silently returns the all-zero score, even though the pair
has positive component compatibility; no error reaches the caller. -/
theorem C5_counterexample :
    dsum zeroWeights = 0 ∧
    RecommendationAlgorithms.base_score scenarioUser scenarioCandidate zeroWeights
      RecommendationAlgorithms.BioMode.modeNone = 0 ∧
    Sim.pace_similarity scenarioUser scenarioCandidate = 1 := by
  have hz : dsum zeroWeights = 0 := by norm_num [dsum, zeroWeights]
  have hdg : ∀ k : String, dget zeroWeights k = 0 := by
    intro k
    simp [dget, zeroWeights]
  refine ⟨hz, ?_, scenario_pace⟩
  simp [RecommendationAlgorithms.base_score, hdg, hz]

/-- C5 amended: aggregating with a WeightConfiguration of nonnegative
weights summing to zero is silently treated as producing the all-zero
raw score (the denominator falls back to 1.0); it is never reported as
an error. -/
theorem C5_amended (user : UserProfile) (profile : Profile)
    (w : List (String × ℚ)) (m : RecommendationAlgorithms.BioMode)
    (hw : ∀ kv ∈ w, 0 ≤ kv.2) (hz : dsum w = 0) :
    RecommendationAlgorithms.base_score user profile w m = 0 := by
  have hdg := dget_eq_zero_of_dsum_eq_zero hw hz
  simp [RecommendationAlgorithms.base_score, hdg, hz]

/-- C5 witness: the amended statement instantiated on the concrete
zero-sum configuration. -/
theorem C5_witness :
    (∀ kv ∈ zeroWeights, 0 ≤ kv.2) ∧ dsum zeroWeights = 0 ∧
    RecommendationAlgorithms.base_score scenarioUser scenarioCandidate zeroWeights
      RecommendationAlgorithms.BioMode.modeNone = 0 := by
  have hw : ∀ kv ∈ zeroWeights, 0 ≤ kv.2 := by
    intro kv hkv
    simp [zeroWeights] at hkv
    subst hkv
    norm_num
  have hz : dsum zeroWeights = 0 := by norm_num [dsum, zeroWeights]
  exact ⟨hw, hz, C5_amended scenarioUser scenarioCandidate zeroWeights
    RecommendationAlgorithms.BioMode.modeNone hw hz⟩

/-- C6: habit_match returns 0.5 whenever either side is missing or blank
after trimming, and 1 or 0 for match or mismatch when both are known,
while categorical_similarity returns 0 when both sides are blank, 0.5
when exactly one side is blank, and 1 or 0 otherwise; the two variants
differ exactly in the both-blank case. -/
theorem C6_habit_vs_categorical (u p : Option String) :
    ((pyBlank u ∨ pyBlank p) → Sim.habit_match u p = 1/2) ∧
    (¬ pyBlank u → ¬ pyBlank p →
      Sim.habit_match u p = if Sim.pyNorm u = Sim.pyNorm p then 1 else 0) ∧
    ((pyBlank u ∧ pyBlank p) → Sim.categorical_similarity u p = 0) ∧
    ((pyBlank u ∧ ¬ pyBlank p) ∨ (¬ pyBlank u ∧ pyBlank p) →
      Sim.categorical_similarity u p = 1/2) ∧
    (¬ pyBlank u → ¬ pyBlank p →
      Sim.categorical_similarity u p = if Sim.pyNorm u = Sim.pyNorm p then 1 else 0) ∧
    (Sim.habit_match u p = Sim.categorical_similarity u p ↔ ¬ (pyBlank u ∧ pyBlank p)) := by
  simp only [pyBlank]
  refine ⟨?_, ?_, ?_, ?_, ?_, ?_⟩
  · intro h
    simp only [Sim.habit_match]
    exact if_pos h
  · intro hu hp2
    simp only [Sim.habit_match]
    rw [if_neg (not_or.mpr ⟨hu, hp2⟩)]
  · intro h
    simp only [Sim.categorical_similarity]
    exact if_pos h
  · intro h
    simp only [Sim.categorical_similarity]
    rcases h with ⟨hu, hp2⟩ | ⟨hu, hp2⟩
    · rw [if_neg (by tauto), if_pos (Or.inl hu)]
    · rw [if_neg (by tauto), if_pos (Or.inr hp2)]
  · intro hu hp2
    simp only [Sim.categorical_similarity]
    rw [if_neg (by tauto), if_neg (not_or.mpr ⟨hu, hp2⟩)]
  · constructor
    · intro heq hboth
      simp only [Sim.habit_match, Sim.categorical_similarity] at heq
      rw [if_pos (Or.inl hboth.1), if_pos hboth] at heq
      norm_num at heq
    · intro hnb
      by_cases hu : Sim.pyNorm u = "" <;> by_cases hp2 : Sim.pyNorm p = ""
      · exact absurd ⟨hu, hp2⟩ hnb
      · simp only [Sim.habit_match, Sim.categorical_similarity]
        rw [if_neg (show ¬(Sim.pyNorm u = "" ∧ Sim.pyNorm p = "") from fun hc => hp2 hc.2),
          if_pos (Or.inl hu)]
      · simp only [Sim.habit_match, Sim.categorical_similarity]
        rw [if_neg (show ¬(Sim.pyNorm u = "" ∧ Sim.pyNorm p = "") from fun hc => hu hc.1),
          if_pos (Or.inr hp2)]
      · simp only [Sim.habit_match, Sim.categorical_similarity]
        rw [if_neg (not_or.mpr ⟨hu, hp2⟩),
          if_neg (show ¬(Sim.pyNorm u = "" ∧ Sim.pyNorm p = "") from fun hc => hu hc.1)]

/-- C6 witness: the case analysis instantiated on concrete habit
strings. -/
theorem C6_witness :
    Sim.habit_match (some "") (some "smoker") = 1/2 ∧
    Sim.categorical_similarity none none = 0 ∧
    Sim.categorical_similarity (some "") (some "vegan") = 1/2 ∧
    Sim.habit_match (some "Yes") (some "yes") = 1 := by
  have t1 := (C6_habit_vs_categorical (some "") (some "smoker")).1
  have t2 := (C6_habit_vs_categorical none none).2.2.1
  have t3 := (C6_habit_vs_categorical (some "") (some "vegan")).2.2.2.1
  have t4 := (C6_habit_vs_categorical (some "Yes") (some "yes")).2.1
  refine ⟨t1 (Or.inl (by decide)), t2 ⟨by decide, by decide⟩,
    t3 (Or.inl ⟨by decide, by decide⟩), ?_⟩
  rw [t4 (by decide) (by decide), if_pos (by decide)]

/-- C7: interests_similarity equals intersection size over
max(sizes, 1) on every input, and in particular is 0 (not 1 and not
undefined) when both interest sets are empty. -/
theorem C7_interests_formula (user : UserProfile) (profile : Profile) :
    Sim.interests_similarity user profile =
      ((user.interests ∩ profile.interests).card : ℚ) /
        ((max (max user.interests.card profile.interests.card) 1 : ℕ) : ℚ) ∧
    (user.interests = ∅ → profile.interests = ∅ →
      Sim.interests_similarity user profile = 0) := by
  constructor
  · simp only [Sim.interests_similarity]
    by_cases h : user.interests = ∅ ∧ profile.interests = ∅
    · rw [if_pos h, h.1, h.2]
      simp
    · rw [if_neg h]
  · intro h1 h2
    simp only [Sim.interests_similarity]
    rw [if_pos ⟨h1, h2⟩]

/-- C7 witness: the empty-empty instance evaluates to 0. -/
theorem C7_witness :
    Sim.interests_similarity emptyInterestUser emptyInterestCandidate = 0 :=
  (C7_interests_formula emptyInterestUser emptyInterestCandidate).2 rfl rfl

/-- C8: swapping the query and candidate sides leaves the interests
similarity and the sleep Jaccard similarity unchanged, while the
semantic bio overlap is not symmetric: a two-token query bio against a
one-token candidate bio scores 1/2, but the swap scores 1. -/
theorem C8_symmetry (u1 : UserProfile) (p1 : Profile) :
    (∀ (u2 : UserProfile) (p2 : Profile),
      u2.interests = p1.interests → p2.interests = u1.interests →
      Sim.interests_similarity u1 p1 = Sim.interests_similarity u2 p2) ∧
    (∀ a b : Option (Finset String),
      Sim.jaccard_overlap a b = Sim.jaccard_overlap b a) ∧
    (∀ (u2 : UserProfile) (p2 : Profile),
      u2.sleep = p1.sleep → p2.sleep = u1.sleep →
      Sim.sleep_similarity u1 p1 = Sim.sleep_similarity u2 p2) ∧
    Sim.semantic_bio_score bioUserTwo bioCandOne ≠
      Sim.semantic_bio_score bioUserOne bioCandTwo := by
  refine ⟨?_, jaccard_overlap_comm, ?_, ?_⟩
  · intro u2 p2 h1 h2
    simp only [Sim.interests_similarity, h1, h2]
    by_cases h : u1.interests = ∅ ∧ p1.interests = ∅
    · rw [if_pos h, if_pos ⟨h.2, h.1⟩]
    · rw [if_neg h, if_neg (fun hc => h ⟨hc.2, hc.1⟩), Finset.inter_comm,
        max_comm u1.interests.card p1.interests.card]
  · intro u2 p2 h1 h2
    simp only [Sim.sleep_similarity, h1, h2]
    exact jaccard_overlap_comm u1.sleep p1.sleep
  · have c1 : (Sim.tokenSet (Sim.replace_punct (lowerStr "hello world")) ∩
        Sim.tokenSet (Sim.replace_punct (lowerStr "hello"))).card = 1 := by decide
    have c2 : (Sim.tokenSet (Sim.replace_punct (lowerStr "hello world"))).card = 2 := by
      decide
    have c3 : (Sim.tokenSet (Sim.replace_punct (lowerStr "hello")) ∩
        Sim.tokenSet (Sim.replace_punct (lowerStr "hello world"))).card = 1 := by decide
    have c4 : (Sim.tokenSet (Sim.replace_punct (lowerStr "hello"))).card = 1 := by decide
    have e1 : Sim.semantic_bio_score bioUserTwo bioCandOne = 1/2 := by
      simp only [Sim.semantic_bio_score, bioUserTwo, bioCandOne, Option.getD_some, c1, c2]
      norm_num
    have e2 : Sim.semantic_bio_score bioUserOne bioCandTwo = 1 := by
      simp only [Sim.semantic_bio_score, bioUserOne, bioCandTwo, Option.getD_some, c3, c4]
      norm_num
    rw [e1, e2]
    norm_num

/-- C8 witness: the symmetry statements instantiated on the concrete
bio profiles (whose interest and sleep attributes coincide pairwise). -/
theorem C8_witness :
    Sim.interests_similarity bioUserTwo bioCandOne =
      Sim.interests_similarity bioUserOne bioCandTwo ∧
    Sim.sleep_similarity bioUserTwo bioCandOne =
      Sim.sleep_similarity bioUserOne bioCandTwo := by
  obtain ⟨hi, _, hs, _⟩ := C8_symmetry bioUserTwo bioCandOne
  exact ⟨hi bioUserOne bioCandTwo rfl rfl, hs bioUserOne bioCandTwo rfl rfl⟩
